import Mathlib

/-!
Shallow embedding of the fs-access Deno module (src/mod.ts and
src/is_executable.ts, with the AccessMode enum from types.ts).

The Deno runtime primitives (Deno.statSync, Deno.openSync, Deno.readDirSync,
Deno.writeTextFileSync, Deno.removeSync, Deno.permissions.querySync,
Deno.Command.outputSync, and their async counterparts) are modelled as an
environment record `Env` of fixed functions.  A thrown JavaScript value is
modelled as an `ErrVal`; functions return `Except ErrVal` together with a
trace of the primitive operations they performed, so that claims about which
probe runs (and about not probing at all) can be stated exactly.
-/

namespace FsAccess

/-- Relevant fields of the Deno.FileInfo record produced by a stat. -/
structure FileInfo where
  isFile : Bool
  isDirectory : Bool
deriving DecidableEq

/-- A failure coming out of a runtime primitive: either an instance of
Deno.errors.NotFound, or some other runtime failure (tagged so distinct
failures stay distinguishable when chained as causes). -/
inductive PrimErr where
  | notFound : PrimErr
  | other : Nat → PrimErr
deriving DecidableEq

/-- A thrown JavaScript value: either a primitive runtime failure, or a value
built by `new Error(message, \x7b cause \x7d)` (the cause is absent when the
second argument is omitted). -/
inductive ErrVal where
  | prim : PrimErr → ErrVal
  | err : String → Option ErrVal → ErrVal

/-- Result of Deno.permissions.querySync for the run permission. -/
inductive PermState where
  | granted : PermState
  | denied : PermState
  | prompt : PermState
deriving DecidableEq

/-- One primitive filesystem/process operation, recorded in the trace. -/
inductive Op where
  | stat : String → Op
  | openRead : String → Op
  | openWrite : String → Op
  | closeFile : String → Op
  | readDirNext : String → Op
  | writeTextFile : String → Op
  | remove : String → Op
  | permQuery : String → Op
  | runTest : String → Op
deriving DecidableEq

/-- The host runtime: the platform identifier `Deno.build.os`, the clock
`Date.now()`, and the outcome each primitive produces on each path.  Each
field models one Deno primitive used by the source. `runTestCode` is the exit
code of the external executable-bit test utility spawned through
`new Deno.Command("test", ...)`; its error case models a failed spawn. -/
structure Env where
  os : String
  now : Nat
  stat : String → Except PrimErr FileInfo
  openRead : String → Except PrimErr Unit
  openWrite : String → Except PrimErr Unit
  readDirNext : String → Except PrimErr Unit
  writeTextFile : String → Except PrimErr Unit
  remove : String → Except PrimErr Unit
  permQueryRun : String → PermState
  runTestCode : String → Except PrimErr Nat

/-- ASCII lowering of one character, modelling the effect of JavaScript
String.prototype.toLowerCase on the ASCII paths and extensions involved. -/
def lowerChar (c : Char) : Char :=
  if 'A' ≤ c ∧ c ≤ 'Z' then Char.ofNat (c.toNat + 32) else c

/-- Lowercasing of a whole string (JavaScript toLowerCase, ASCII fragment). -/
def lowerStr (s : String) : String :=
  String.mk (s.data.map lowerChar)

/-- JavaScript String.prototype.endsWith: `post` is a suffix of `s`. -/
def strEndsWith (s post : String) : Bool :=
  List.isSuffixOf post.data s.data

/-- The fixed allow-list of executable extensions used on Windows
(src/is_executable.ts, `execExtensions`). -/
def execExtensions : List String := [".exe", ".cmd", ".bat", ".com"]

/-- The Windows-branch test of is_executable.ts:
`execExtensions.some((ext) => path.toString().toLowerCase().endsWith(ext))`. -/
def windowsExecMatch (path : String) : Bool :=
  execExtensions.any (fun ext => strEndsWith (lowerStr path) ext)

/-- The numeric AccessMode enum values from types.ts. -/
def AccessMode.F_OK : Int := 0

/-- R_OK enum value. -/
def AccessMode.R_OK : Int := 4

/-- W_OK enum value. -/
def AccessMode.W_OK : Int := 2

/-- X_OK enum value. -/
def AccessMode.X_OK : Int := 1

/-- A single-quote character, as a string. -/
def sq : String := String.singleton (Char.ofNat 39)

/-- The `AccessMode2String` function of types.ts: the switch maps the four
enum values to their names and everything else (an undefined mode included)
to the empty string.  An omitted TypeScript argument is `none`. -/
def AccessMode2String (mode : Option Int) : String :=
  match mode with
  | some m =>
    if m = AccessMode.F_OK then "Exists"
    else if m = AccessMode.R_OK then "Readable"
    else if m = AccessMode.W_OK then "Writable"
    else if m = AccessMode.X_OK then "Executable"
    else ""
  | none => ""

/-- The ENOENT message built in the catch block of accessSync/access. -/
def enoentMsg (path : String) : String :=
  "ENOENT: no such file or directory, access " ++ sq ++ path ++ sq

/-- The EACCES message built in the catch block of accessSync/access. -/
def eaccesMsg (mode : Option Int) (path : String) : String :=
  "EACCES: permission denied, " ++ AccessMode2String mode ++ " " ++ sq ++ path ++ sq

/-- The message of the error thrown inside the X_OK branch when the
executable probe answers false. -/
def execDeniedMsg (path : String) : String :=
  "EACCES: permission denied, execute " ++ sq ++ path ++ sq

/-- The scratch path used by the W_OK directory probe:
`${path}/.deno_access_test_${Date.now()}`. -/
def tempScratchPath (path : String) (now : Nat) : String :=
  path ++ "/.deno_access_test_" ++ toString now

/-- The `error instanceof Deno.errors.NotFound` test of the catch blocks:
true exactly on a primitive not-found failure (an `Error` built by the code
itself is never an instance of that class). -/
def isNotFoundInstance : ErrVal → Bool
  | .prim PrimErr.notFound => true
  | _ => false

/-- The shared catch block of accessSync/access: a caught not-found instance
is rewrapped as ENOENT, everything else as EACCES, in both cases with the
caught value attached as the cause. -/
def catchHandler (mode : Option Int) (path : String) (e : ErrVal) : ErrVal :=
  if isNotFoundInstance e then ErrVal.err (enoentMsg path) (some e)
  else ErrVal.err (eaccesMsg mode path) (some e)

/-- `isExecutableSync` from src/is_executable.ts: stat the path (a stat
failure propagates), answer false for a non-file, on Windows answer by the
lexical extension match, otherwise query the run permission, answer false
unless granted, and otherwise spawn `test -x path` and answer whether the
exit code is 0 (a spawn failure propagates). -/
def isExecutableSync (env : Env) (path : String) : Except ErrVal Bool × List Op :=
  match env.stat path with
  | .error e => (.error (.prim e), [.stat path])
  | .ok fileInfo =>
    if fileInfo.isFile = false then (.ok false, [.stat path])
    else if env.os = "windows" then (.ok (windowsExecMatch path), [.stat path])
    else if env.permQueryRun path ≠ PermState.granted then
      (.ok false, [.stat path, .permQuery path])
    else
      match env.runTestCode path with
      | .error e => (.error (.prim e), [.stat path, .permQuery path, .runTest path])
      | .ok code => (.ok (code == 0), [.stat path, .permQuery path, .runTest path])

/-- `isExecutable` (the async form) from src/is_executable.ts, transcribed
from its own body: await Deno.stat, the non-file test, the Windows extension
match, await Deno.permissions.query, and await of the command output. -/
def isExecutable (env : Env) (path : String) : Except ErrVal Bool × List Op :=
  match env.stat path with
  | .error e => (.error (.prim e), [.stat path])
  | .ok fileInfo =>
    if fileInfo.isFile = false then (.ok false, [.stat path])
    else if env.os = "windows" then (.ok (windowsExecMatch path), [.stat path])
    else if env.permQueryRun path ≠ PermState.granted then
      (.ok false, [.stat path, .permQuery path])
    else
      match env.runTestCode path with
      | .error e => (.error (.prim e), [.stat path, .permQuery path, .runTest path])
      | .ok code => (.ok (code == 0), [.stat path, .permQuery path, .runTest path])

/-- The try block of `accessSync` (src/mod.ts lines 44 to 79): stat, return
on an omitted mode, then the switch on the mode with its file/directory
branches.  The default switch branch (F_OK and any unrecognized mode) falls
through to success. -/
def accessSyncBody (env : Env) (path : String) (mode : Option Int) :
    Except ErrVal Unit × List Op :=
  match env.stat path with
  | .error e => (.error (.prim e), [.stat path])
  | .ok fileInfo =>
    match mode with
    | none => (.ok (), [.stat path])
    | some m =>
      if m = AccessMode.R_OK then
        if fileInfo.isFile then
          match env.openRead path with
          | .error e => (.error (.prim e), [.stat path, .openRead path])
          | .ok _ => (.ok (), [.stat path, .openRead path, .closeFile path])
        else if fileInfo.isDirectory then
          match env.readDirNext path with
          | .error e => (.error (.prim e), [.stat path, .readDirNext path])
          | .ok _ => (.ok (), [.stat path, .readDirNext path])
        else (.ok (), [.stat path])
      else if m = AccessMode.W_OK then
        if fileInfo.isFile then
          match env.openWrite path with
          | .error e => (.error (.prim e), [.stat path, .openWrite path])
          | .ok _ => (.ok (), [.stat path, .openWrite path, .closeFile path])
        else if fileInfo.isDirectory then
          match env.writeTextFile (tempScratchPath path env.now) with
          | .error e => (.error (.prim e), [.stat path, .writeTextFile (tempScratchPath path env.now)])
          | .ok _ =>
            match env.remove (tempScratchPath path env.now) with
            | .error e =>
              (.error (.prim e),
                [.stat path, .writeTextFile (tempScratchPath path env.now),
                  .remove (tempScratchPath path env.now)])
            | .ok _ =>
              (.ok (),
                [.stat path, .writeTextFile (tempScratchPath path env.now),
                  .remove (tempScratchPath path env.now)])
        else (.ok (), [.stat path])
      else if m = AccessMode.X_OK then
        if fileInfo.isDirectory then
          match env.readDirNext path with
          | .error e => (.error (.prim e), [.stat path, .readDirNext path])
          | .ok _ => (.ok (), [.stat path, .readDirNext path])
        else if fileInfo.isFile then
          match isExecutableSync env path with
          | (.error e, tr) => (.error e, .stat path :: tr)
          | (.ok b, tr) =>
            if b = false then (.error (.err (execDeniedMsg path) none), .stat path :: tr)
            else (.ok (), .stat path :: tr)
        else (.ok (), [.stat path])
      else (.ok (), [.stat path])

/-- `accessSync` from src/mod.ts: the try body wrapped by the catch block. -/
def accessSync (env : Env) (path : String) (mode : Option Int) :
    Except ErrVal Unit × List Op :=
  match accessSyncBody env path mode with
  | (.ok u, tr) => (.ok u, tr)
  | (.error e, tr) => (.error (catchHandler mode path e), tr)

/-- The try block of the async `access` (src/mod.ts lines 107 to 142),
transcribed from its own body: await Deno.stat, the omitted-mode return, the
switch with open-then-close, async directory iterator next, write-then-remove
of the scratch entry, and the await of `isExecutable`. -/
def accessBody (env : Env) (path : String) (mode : Option Int) :
    Except ErrVal Unit × List Op :=
  match env.stat path with
  | .error e => (.error (.prim e), [.stat path])
  | .ok fileInfo =>
    match mode with
    | none => (.ok (), [.stat path])
    | some m =>
      if m = AccessMode.R_OK then
        if fileInfo.isFile then
          match env.openRead path with
          | .error e => (.error (.prim e), [.stat path, .openRead path])
          | .ok _ => (.ok (), [.stat path, .openRead path, .closeFile path])
        else if fileInfo.isDirectory then
          match env.readDirNext path with
          | .error e => (.error (.prim e), [.stat path, .readDirNext path])
          | .ok _ => (.ok (), [.stat path, .readDirNext path])
        else (.ok (), [.stat path])
      else if m = AccessMode.W_OK then
        if fileInfo.isFile then
          match env.openWrite path with
          | .error e => (.error (.prim e), [.stat path, .openWrite path])
          | .ok _ => (.ok (), [.stat path, .openWrite path, .closeFile path])
        else if fileInfo.isDirectory then
          match env.writeTextFile (tempScratchPath path env.now) with
          | .error e => (.error (.prim e), [.stat path, .writeTextFile (tempScratchPath path env.now)])
          | .ok _ =>
            match env.remove (tempScratchPath path env.now) with
            | .error e =>
              (.error (.prim e),
                [.stat path, .writeTextFile (tempScratchPath path env.now),
                  .remove (tempScratchPath path env.now)])
            | .ok _ =>
              (.ok (),
                [.stat path, .writeTextFile (tempScratchPath path env.now),
                  .remove (tempScratchPath path env.now)])
        else (.ok (), [.stat path])
      else if m = AccessMode.X_OK then
        if fileInfo.isDirectory then
          match env.readDirNext path with
          | .error e => (.error (.prim e), [.stat path, .readDirNext path])
          | .ok _ => (.ok (), [.stat path, .readDirNext path])
        else if fileInfo.isFile then
          match isExecutable env path with
          | (.error e, tr) => (.error e, .stat path :: tr)
          | (.ok b, tr) =>
            if b = false then (.error (.err (execDeniedMsg path) none), .stat path :: tr)
            else (.ok (), .stat path :: tr)
        else (.ok (), [.stat path])
      else (.ok (), [.stat path])

/-- The async `access` from src/mod.ts: its try body wrapped by its catch
block (identical in text to the sync one). -/
def access (env : Env) (path : String) (mode : Option Int) :
    Except ErrVal Unit × List Op :=
  match accessBody env path mode with
  | (.ok u, tr) => (.ok u, tr)
  | (.error e, tr) => (.error (catchHandler mode path e), tr)

/-- Paths of entries created (writeTextFile) during a trace. -/
def createdPaths (tr : List Op) : List String :=
  tr.filterMap fun op =>
    match op with
    | .writeTextFile p => some p
    | _ => none

/-- Paths of entries removed during a trace. -/
def removedPaths (tr : List Op) : List String :=
  tr.filterMap fun op =>
    match op with
    | .remove p => some p
    | _ => none

/-- Entries created during a trace but never removed by it: the residue the
call would leave behind. -/
def createdNotRemoved (tr : List Op) : List String :=
  (createdPaths tr).filter (fun p => !(removedPaths tr).contains p)

/-- A concrete runtime: a POSIX-like host holding a readable, writable,
executable regular file at every path, with every primitive succeeding. -/
def fileEnv : Env :=
  { os := "linux", now := 17,
    stat := fun _ => .ok { isFile := true, isDirectory := false },
    openRead := fun _ => .ok (), openWrite := fun _ => .ok (),
    readDirNext := fun _ => .ok (), writeTextFile := fun _ => .ok (),
    remove := fun _ => .ok (), permQueryRun := fun _ => PermState.granted,
    runTestCode := fun _ => .ok 0 }

/-- A concrete runtime holding a directory at every path. -/
def dirEnv : Env :=
  { fileEnv with stat := fun _ => .ok { isFile := false, isDirectory := true } }

/-- A concrete runtime where no path exists: every stat raises NotFound. -/
def notFoundEnv : Env :=
  { fileEnv with stat := fun _ => .error PrimErr.notFound }

/-- A concrete runtime where the stat fails with a non-NotFound error. -/
def statOtherEnv : Env :=
  { fileEnv with stat := fun _ => .error (PrimErr.other 5) }

/-- A concrete Windows runtime holding a regular file at every path. -/
def winEnv : Env :=
  { fileEnv with os := "windows" }

/-- A concrete runtime where every path is neither a regular file nor a
directory (a socket or device node, say). -/
def otherKindEnv : Env :=
  { fileEnv with stat := fun _ => .ok { isFile := false, isDirectory := false } }

/-- The async entry point is the same function as the sync one: the
transcriptions of the two bodies coincide definitionally. -/
theorem isExecutable_eq (env : Env) (path : String) :
    isExecutable env path = isExecutableSync env path := rfl

/-- The async try body coincides with the sync try body. -/
theorem accessBody_eq (env : Env) (path : String) (mode : Option Int) :
    accessBody env path mode = accessSyncBody env path mode := rfl

/-- The async access coincides with the sync access. -/
theorem access_eq (env : Env) (path : String) (mode : Option Int) :
    access env path mode = accessSync env path mode := rfl

/-- Claim C8: for every path and mode, the synchronous and asynchronous
calling conventions (accessSync vs access, isExecutableSync vs isExecutable)
implement the identical decision tree: as functions of the environment they
return the same outcome, the same messages, and the same operation trace. -/
theorem claimC8 (env : Env) (path : String) (mode : Option Int) :
    access env path mode = accessSync env path mode
    ∧ isExecutable env path = isExecutableSync env path :=
  ⟨access_eq env path mode, isExecutable_eq env path⟩

/-- Claim C2: for every path that does not exist (the stat raises NotFound)
and every mode, omitted mode included, both calling conventions fail with the
ENOENT message naming the path, with the underlying not-found failure
attached as the chained cause, after performing only the stat. -/
theorem claimC2 (env : Env) (path : String) (mode : Option Int)
    (h : env.stat path = .error PrimErr.notFound) :
    accessSync env path mode
      = (.error (.err (enoentMsg path) (some (.prim PrimErr.notFound))), [.stat path])
    ∧ access env path mode
      = (.error (.err (enoentMsg path) (some (.prim PrimErr.notFound))), [.stat path]) := by
  have hs : accessSyncBody env path mode = (.error (.prim PrimErr.notFound), [.stat path]) := by
    unfold accessSyncBody
    rw [h]
  refine ⟨?_, ?_⟩ <;>
    simp [access_eq, accessSync, hs, catchHandler, isNotFoundInstance]

/-- Witness for C2 at a concrete runtime and path. -/
theorem claimC2_witness :
    notFoundEnv.stat "missing.txt" = .error PrimErr.notFound
    ∧ accessSync notFoundEnv "missing.txt" none
      = (.error (.err (enoentMsg "missing.txt") (some (.prim PrimErr.notFound))),
          [.stat "missing.txt"]) :=
  ⟨rfl, (claimC2 notFoundEnv "missing.txt" none rfl).1⟩

/-- Claim C1: for every existing path the access check selects the probe
dictated by the resolver table. R_OK on a regular file opens the path for
reading and closes it; R_OK on a directory fetches one enumeration entry;
W_OK on a regular file opens it for writing and closes it; X_OK on a regular
file delegates to the execute probe and raises permission denied exactly when
it returns false; X_OK on a directory performs the same enumeration probe as
R_OK; and the async form runs the same tree. -/
theorem claimC1 (env : Env) (path : String) (fi : FileInfo)
    (hstat : env.stat path = .ok fi) :
    (fi.isFile = true → env.openRead path = .ok () →
      accessSync env path (some AccessMode.R_OK)
        = (.ok (), [.stat path, .openRead path, .closeFile path]))
    ∧ (fi.isFile = false → fi.isDirectory = true → env.readDirNext path = .ok () →
      accessSync env path (some AccessMode.R_OK)
        = (.ok (), [.stat path, .readDirNext path]))
    ∧ (fi.isFile = true → env.openWrite path = .ok () →
      accessSync env path (some AccessMode.W_OK)
        = (.ok (), [.stat path, .openWrite path, .closeFile path]))
    ∧ (fi.isFile = true → fi.isDirectory = false → ∀ b tr,
      isExecutableSync env path = (.ok b, tr) →
      (b = true →
        accessSync env path (some AccessMode.X_OK) = (.ok (), .stat path :: tr))
      ∧ (b = false →
        accessSync env path (some AccessMode.X_OK)
          = (.error (.err (eaccesMsg (some AccessMode.X_OK) path)
              (some (.err (execDeniedMsg path) none))), .stat path :: tr)))
    ∧ (fi.isDirectory = true → env.readDirNext path = .ok () →
      accessSync env path (some AccessMode.X_OK)
        = (.ok (), [.stat path, .readDirNext path]))
    ∧ (∀ mode, access env path mode = accessSync env path mode) := by
  refine ⟨?_, ?_, ?_, ?_, ?_, fun mode => access_eq env path mode⟩
  · intro hf hr
    simp [accessSync, accessSyncBody, hstat, hf, hr, AccessMode.R_OK]
  · intro hf hd hr
    simp [accessSync, accessSyncBody, hstat, hf, hd, hr, AccessMode.R_OK]
  · intro hf hw
    simp [accessSync, accessSyncBody, hstat, hf, hw, AccessMode.R_OK, AccessMode.W_OK]
  · intro hf hd b tr hex
    refine ⟨?_, ?_⟩ <;> intro hb <;>
      simp [accessSync, accessSyncBody, hstat, hf, hd, hex, hb, catchHandler,
        isNotFoundInstance, AccessMode.R_OK, AccessMode.W_OK, AccessMode.X_OK]
  · intro hd hr
    simp [accessSync, accessSyncBody, hstat, hd, hr, AccessMode.R_OK, AccessMode.W_OK,
      AccessMode.X_OK]

/-- Witness for C1 at a concrete runtime holding a readable regular file. -/
theorem claimC1_witness :
    fileEnv.stat "f.txt" = .ok { isFile := true, isDirectory := false }
    ∧ accessSync fileEnv "f.txt" (some AccessMode.R_OK)
      = (.ok (), [.stat "f.txt", .openRead "f.txt", .closeFile "f.txt"]) :=
  ⟨rfl, (claimC1 fileEnv "f.txt" { isFile := true, isDirectory := false } rfl).1 rfl rfl⟩

/-- Claim C3: in both calling conventions, any failure reaching the catch
block whose value is not a not-found instance (for every error reaching the
catch here, its root cause: primitive failures carry no further cause and
the internally built execute error has none) is normalized to the EACCES
message built from the mode name and path, with the caught failure retained
as the chained cause; the mode name is Exists for F_OK, Readable for R_OK,
Writable for W_OK, Executable for X_OK, and empty for anything else. -/
theorem claimC3 :
    (∀ (env : Env) (path : String) (mode : Option Int) (e : ErrVal) (tr : List Op),
      accessSyncBody env path mode = (.error e, tr) →
      isNotFoundInstance e = false →
      accessSync env path mode = (.error (.err (eaccesMsg mode path) (some e)), tr))
    ∧ (∀ (env : Env) (path : String) (mode : Option Int) (e : ErrVal) (tr : List Op),
      accessBody env path mode = (.error e, tr) →
      isNotFoundInstance e = false →
      access env path mode = (.error (.err (eaccesMsg mode path) (some e)), tr))
    ∧ AccessMode2String (some AccessMode.F_OK) = "Exists"
    ∧ AccessMode2String (some AccessMode.R_OK) = "Readable"
    ∧ AccessMode2String (some AccessMode.W_OK) = "Writable"
    ∧ AccessMode2String (some AccessMode.X_OK) = "Executable"
    ∧ AccessMode2String none = ""
    ∧ (∀ k : Int, k ≠ AccessMode.F_OK → k ≠ AccessMode.X_OK → k ≠ AccessMode.W_OK →
        k ≠ AccessMode.R_OK → AccessMode2String (some k) = "") := by
  refine ⟨?_, ?_, rfl, rfl, rfl, rfl, rfl, ?_⟩
  · intro env path mode e tr hbody hnf
    simp [accessSync, hbody, catchHandler, hnf]
  · intro env path mode e tr hbody hnf
    rw [access_eq]
    rw [accessBody_eq] at hbody
    simp [accessSync, hbody, catchHandler, hnf]
  · intro k h0 h1 h2 h4
    simp [AccessMode2String, AccessMode.F_OK, AccessMode.R_OK, AccessMode.W_OK,
      AccessMode.X_OK] at h0 h1 h2 h4 ⊢
    simp [h0, h1, h2, h4]

/-- Witness for C3: a stat failing with a non-not-found error at a concrete
runtime is rewrapped as EACCES with the failure chained as cause. -/
theorem claimC3_witness :
    accessSyncBody statOtherEnv "f.txt" (some AccessMode.W_OK)
      = (.error (.prim (PrimErr.other 5)), [.stat "f.txt"])
    ∧ isNotFoundInstance (.prim (PrimErr.other 5)) = false
    ∧ accessSync statOtherEnv "f.txt" (some AccessMode.W_OK)
      = (.error (.err (eaccesMsg (some AccessMode.W_OK) "f.txt")
          (some (.prim (PrimErr.other 5)))), [.stat "f.txt"]) :=
  ⟨rfl, rfl,
    claimC3.1 statOtherEnv "f.txt" (some AccessMode.W_OK) (.prim (PrimErr.other 5))
      [.stat "f.txt"] rfl rfl⟩

/-- Claim C4: when the stat succeeds, an omitted mode, F_OK, and any mode
outside the four constants all perform no probe beyond the stat and succeed;
moreover a mode outside the four constants behaves identically to an omitted
mode on every path, the failing ones included (their EACCES mode-name is the
same empty string). -/
theorem claimC4 (env : Env) (path : String) :
    (∀ fi, env.stat path = .ok fi →
      accessSync env path none = (.ok (), [.stat path])
      ∧ accessSync env path (some AccessMode.F_OK) = (.ok (), [.stat path])
      ∧ (∀ k : Int, k ≠ AccessMode.X_OK → k ≠ AccessMode.W_OK → k ≠ AccessMode.R_OK →
          accessSync env path (some k) = (.ok (), [.stat path])))
    ∧ (∀ k : Int, k ≠ AccessMode.F_OK → k ≠ AccessMode.X_OK → k ≠ AccessMode.W_OK →
        k ≠ AccessMode.R_OK →
        accessSync env path (some k) = accessSync env path none
        ∧ access env path (some k) = access env path none) := by
  constructor
  · intro fi hstat
    refine ⟨?_, ?_, ?_⟩
    · simp [accessSync, accessSyncBody, hstat]
    · simp [accessSync, accessSyncBody, hstat, AccessMode.F_OK, AccessMode.R_OK,
        AccessMode.W_OK, AccessMode.X_OK]
    · intro k h1 h2 h4
      simp [AccessMode.R_OK, AccessMode.W_OK, AccessMode.X_OK] at h1 h2 h4
      simp [accessSync, accessSyncBody, hstat, AccessMode.R_OK, AccessMode.W_OK,
        AccessMode.X_OK, h1, h2, h4]
  · intro k h0 h1 h2 h4
    have hmsg : eaccesMsg (some k) path = eaccesMsg none path := by
      simp [AccessMode.F_OK, AccessMode.R_OK, AccessMode.W_OK, AccessMode.X_OK]
        at h0 h1 h2 h4
      simp [eaccesMsg, AccessMode2String, AccessMode.F_OK, AccessMode.R_OK,
        AccessMode.W_OK, AccessMode.X_OK, h0, h1, h2, h4]
    have hbody : accessSyncBody env path (some k) = accessSyncBody env path none := by
      simp [AccessMode.F_OK, AccessMode.R_OK, AccessMode.W_OK, AccessMode.X_OK]
        at h0 h1 h2 h4
      unfold accessSyncBody
      cases env.stat path with
      | error e => rfl
      | ok fi =>
        simp [AccessMode.R_OK, AccessMode.W_OK, AccessMode.X_OK, h1, h2, h4]
    have hsync : accessSync env path (some k) = accessSync env path none := by
      unfold accessSync
      rw [hbody]
      cases h : accessSyncBody env path none with
      | mk r tr =>
        cases r with
        | ok u => rfl
        | error e => simp [catchHandler, hmsg]
    exact ⟨hsync, by rw [access_eq, access_eq, hsync]⟩

/-- Witness for C4 at a concrete runtime, with the out-of-range mode 9. -/
theorem claimC4_witness :
    fileEnv.stat "f.txt" = .ok { isFile := true, isDirectory := false }
    ∧ accessSync fileEnv "f.txt" (some 9) = (.ok (), [.stat "f.txt"])
    ∧ accessSync fileEnv "f.txt" (some 9) = accessSync fileEnv "f.txt" none := by
  refine ⟨rfl, ?_, ?_⟩
  · exact ((claimC4 fileEnv "f.txt").1 { isFile := true, isDirectory := false } rfl).2.2 9
      (by decide) (by decide) (by decide)
  · exact ((claimC4 fileEnv "f.txt").2 9 (by decide) (by decide) (by decide) (by decide)).1

/-- Counterexample to claim C5: at a runtime where the path does not exist,
both forms of the execute probe do throw — the stat's not-found failure
propagates out of them — instead of returning a boolean, so the probe is not
non-throwing for paths that cannot be statted. -/
theorem claimC5_counterexample :
    isExecutableSync notFoundEnv "missing.sh"
      = (.error (.prim PrimErr.notFound), [.stat "missing.sh"])
    ∧ isExecutable notFoundEnv "missing.sh"
      = (.error (.prim PrimErr.notFound), [.stat "missing.sh"]) :=
  ⟨rfl, rfl⟩

/-- Claim C5 as amended: the execute probe returns a boolean for every path
on which its underlying primitives succeed — a successful stat together with
either a non-file answer, a Windows host, a non-granted run permission, or a
successful spawn of the test utility — and when the stat fails, the probe
does not return a boolean but propagates that primitive failure. -/
theorem claimC5 (env : Env) (path : String) :
    (∀ e, env.stat path = .error e →
      isExecutableSync env path = (.error (.prim e), [.stat path])
      ∧ isExecutable env path = (.error (.prim e), [.stat path]))
    ∧ (∀ fi, env.stat path = .ok fi →
      (fi.isFile = false ∨ env.os = "windows"
          ∨ env.permQueryRun path ≠ PermState.granted
          ∨ (∃ c, env.runTestCode path = .ok c)) →
      ∃ b, (isExecutableSync env path).1 = .ok b
        ∧ (isExecutable env path).1 = .ok b) := by
  constructor
  · intro e he
    have h1 : isExecutableSync env path = (.error (.prim e), [.stat path]) := by
      unfold isExecutableSync
      rw [he]
    exact ⟨h1, by rw [isExecutable_eq]; exact h1⟩
  · intro fi hstat hcase
    rw [isExecutable_eq]
    by_cases hf : fi.isFile = false
    · exact ⟨false, by simp [isExecutableSync, hstat, hf], by simp [isExecutableSync, hstat, hf]⟩
    · by_cases hos : env.os = "windows"
      · exact ⟨windowsExecMatch path,
          by simp [isExecutableSync, hstat, hf, hos],
          by simp [isExecutableSync, hstat, hf, hos]⟩
      · by_cases hperm : env.permQueryRun path = PermState.granted
        · rcases hcase with h | h | h | ⟨c, hc⟩
          · exact absurd h hf
          · exact absurd h hos
          · exact absurd hperm h
          · exact ⟨(c == 0),
              by simp [isExecutableSync, hstat, hf, hos, hperm, hc],
              by simp [isExecutableSync, hstat, hf, hos, hperm, hc]⟩
        · exact ⟨false,
            by simp [isExecutableSync, hstat, hf, hos, hperm],
            by simp [isExecutableSync, hstat, hf, hos, hperm]⟩

/-- Witness for the amended C5 at a concrete POSIX runtime whose primitives
all succeed. -/
theorem claimC5_witness :
    fileEnv.stat "tool.sh" = .ok { isFile := true, isDirectory := false }
    ∧ ∃ b, (isExecutableSync fileEnv "tool.sh").1 = .ok b
        ∧ (isExecutable fileEnv "tool.sh").1 = .ok b :=
  ⟨rfl, (claimC5 fileEnv "tool.sh").2 { isFile := true, isDirectory := false } rfl
    (Or.inr (Or.inr (Or.inr ⟨0, rfl⟩)))⟩

/-- Claim C6: on a POSIX-like host, for a statted regular file the execute
probe first queries the run permission for the path; if the state is not
granted it returns false (not an error), and otherwise it spawns the
external test utility and returns true exactly when the exit code is 0. -/
theorem claimC6 (env : Env) (path : String) (fi : FileInfo)
    (hstat : env.stat path = .ok fi) (hf : fi.isFile = true)
    (hos : env.os ≠ "windows") :
    (env.permQueryRun path ≠ PermState.granted →
      isExecutableSync env path = (.ok false, [.stat path, .permQuery path])
      ∧ isExecutable env path = (.ok false, [.stat path, .permQuery path]))
    ∧ (env.permQueryRun path = PermState.granted →
      ∀ c, env.runTestCode path = .ok c →
        isExecutableSync env path
          = (.ok (c == 0), [.stat path, .permQuery path, .runTest path])
        ∧ isExecutable env path
          = (.ok (c == 0), [.stat path, .permQuery path, .runTest path])
        ∧ ((c == 0) = true ↔ c = 0)) := by
  constructor
  · intro hperm
    constructor <;> simp [isExecutable_eq, isExecutableSync, hstat, hf, hos, hperm]
  · intro hperm c hc
    refine ⟨?_, ?_, by simp⟩ <;>
      simp [isExecutable_eq, isExecutableSync, hstat, hf, hos, hperm, hc]

/-- Witness for C6 at a concrete POSIX runtime with permission granted and
exit code 0. -/
theorem claimC6_witness :
    fileEnv.permQueryRun "tool" = PermState.granted
    ∧ fileEnv.runTestCode "tool" = .ok 0
    ∧ isExecutableSync fileEnv "tool"
      = (.ok true, [.stat "tool", .permQuery "tool", .runTest "tool"]) :=
  ⟨rfl, rfl,
    (claimC6 fileEnv "tool" { isFile := true, isDirectory := false } rfl rfl
      (by decide)).2 rfl 0 rfl |>.1⟩

/-- Claim C7: on a Windows-family host, for a statted regular file the
execute probe answers exactly the case-insensitive lexical match of the path
against the fixed allow-list of extensions, and its trace holds nothing but
the metadata stat — no open, enumeration, scratch-entry, or subprocess probe
occurs. -/
theorem claimC7 (env : Env) (path : String) (fi : FileInfo)
    (hstat : env.stat path = .ok fi) (hf : fi.isFile = true)
    (hos : env.os = "windows") :
    isExecutableSync env path = (.ok (windowsExecMatch path), [.stat path])
    ∧ isExecutable env path = (.ok (windowsExecMatch path), [.stat path])
    ∧ windowsExecMatch path
      = List.any [".exe", ".cmd", ".bat", ".com"]
          (fun ext => strEndsWith (lowerStr path) ext) := by
  refine ⟨?_, ?_, rfl⟩ <;>
    simp [isExecutable_eq, isExecutableSync, hstat, hf, hos]

/-- Witness for C7 at a concrete Windows runtime: an uppercase .CMD path is
reported executable from the stat alone. -/
theorem claimC7_witness :
    winEnv.os = "windows"
    ∧ winEnv.stat "SETUP.CMD" = .ok { isFile := true, isDirectory := false }
    ∧ isExecutableSync winEnv "SETUP.CMD" = (.ok true, [.stat "SETUP.CMD"]) := by
  refine ⟨rfl, rfl, ?_⟩
  have h := (claimC7 winEnv "SETUP.CMD" { isFile := true, isDirectory := false }
    rfl rfl rfl).1
  rw [h]
  rfl

/-- Claim C9: a W_OK check on a writable directory (the scratch write and
its removal both succeed) creates exactly the timestamp-named scratch entry
inside the directory, then deletes it, succeeds, and leaves no entry created
but not removed; the async form is the same call, so repeated calls never
accumulate files. -/
theorem claimC9 (env : Env) (path : String) (fi : FileInfo)
    (hstat : env.stat path = .ok fi) (hf : fi.isFile = false)
    (hd : fi.isDirectory = true)
    (hw : env.writeTextFile (tempScratchPath path env.now) = .ok ())
    (hr : env.remove (tempScratchPath path env.now) = .ok ()) :
    accessSync env path (some AccessMode.W_OK)
      = (.ok (), [.stat path, .writeTextFile (tempScratchPath path env.now),
          .remove (tempScratchPath path env.now)])
    ∧ createdNotRemoved (accessSync env path (some AccessMode.W_OK)).2 = []
    ∧ access env path (some AccessMode.W_OK)
      = accessSync env path (some AccessMode.W_OK) := by
  have h1 : accessSync env path (some AccessMode.W_OK)
      = (.ok (), [.stat path, .writeTextFile (tempScratchPath path env.now),
          .remove (tempScratchPath path env.now)]) := by
    simp [accessSync, accessSyncBody, hstat, hf, hd, hw, hr, AccessMode.R_OK,
      AccessMode.W_OK]
  refine ⟨h1, ?_, access_eq env path (some AccessMode.W_OK)⟩
  rw [h1]
  simp [createdNotRemoved, createdPaths, removedPaths]

/-- Witness for C9 at a concrete runtime holding a writable directory. -/
theorem claimC9_witness :
    dirEnv.stat "work" = .ok { isFile := false, isDirectory := true }
    ∧ accessSync dirEnv "work" (some AccessMode.W_OK)
      = (.ok (), [.stat "work", .writeTextFile (tempScratchPath "work" 17),
          .remove (tempScratchPath "work" 17)])
    ∧ createdNotRemoved (accessSync dirEnv "work" (some AccessMode.W_OK)).2 = [] := by
  have h := claimC9 dirEnv "work" { isFile := false, isDirectory := true }
    rfl rfl rfl rfl rfl
  exact ⟨rfl, h.1, h.2.1⟩

/-- Claim C10: for an existing path that is neither a regular file nor a
directory (a socket or device node, say), both calling conventions succeed
for every mode — R_OK, W_OK and X_OK included — performing no operation
beyond the initial stat. -/
theorem claimC10 (env : Env) (path : String) (fi : FileInfo)
    (hstat : env.stat path = .ok fi) (hf : fi.isFile = false)
    (hd : fi.isDirectory = false) :
    ∀ mode, accessSync env path mode = (.ok (), [.stat path])
      ∧ access env path mode = (.ok (), [.stat path]) := by
  intro mode
  have h1 : accessSync env path mode = (.ok (), [.stat path]) := by
    cases mode with
    | none => simp [accessSync, accessSyncBody, hstat]
    | some m =>
      by_cases h4 : m = AccessMode.R_OK
      · simp [accessSync, accessSyncBody, hstat, hf, hd, h4]
      · by_cases h2 : m = AccessMode.W_OK
        · simp [accessSync, accessSyncBody, hstat, hf, hd, h2, AccessMode.R_OK,
            AccessMode.W_OK]
        · by_cases h1 : m = AccessMode.X_OK
          · simp [accessSync, accessSyncBody, hstat, hf, hd, h1, AccessMode.R_OK,
              AccessMode.W_OK, AccessMode.X_OK]
          · simp [accessSync, accessSyncBody, hstat, hf, hd, h4, h2, h1]
  exact ⟨h1, by rw [access_eq]; exact h1⟩

/-- Witness for C10 at a concrete runtime holding a non-file non-directory
node, checked with X_OK. -/
theorem claimC10_witness :
    otherKindEnv.stat "dev.sock" = .ok { isFile := false, isDirectory := false }
    ∧ accessSync otherKindEnv "dev.sock" (some AccessMode.X_OK)
      = (.ok (), [.stat "dev.sock"])
    ∧ access otherKindEnv "dev.sock" (some AccessMode.X_OK)
      = (.ok (), [.stat "dev.sock"]) :=
  ⟨rfl,
    (claimC10 otherKindEnv "dev.sock" { isFile := false, isDirectory := false }
      rfl rfl rfl (some AccessMode.X_OK)).1,
    (claimC10 otherKindEnv "dev.sock" { isFile := false, isDirectory := false }
      rfl rfl rfl (some AccessMode.X_OK)).2⟩

end FsAccess
